import Mathlib

/-!
Verification of the template-analysis core of django-template-lsp.

The Python sources under djlsp/ are shallowly embedded below:

* a small backtracking regular-expression engine mirrors Python `re`
  semantics (greedy / lazy repetition, leftmost alternation, numbered
  capture groups, `re.match` anchoring, `re.search`, `re.findall`) for
  the concrete patterns the code uses;
* djlsp/index.py   : `Variable`, `Template`, `Library`, `WorkspaceIndex`
  and `WorkspaceIndex.update`;
* djlsp/parser.py  : `TemplateParser.loaded_libraries`, `get_context`
  (scope-stack scan), `_django_variable_to_python`,
  `_recursive_block_names`, the completion handlers and the
  `completions` dispatcher, `resolve_completion`;
* djlsp/server.py  : the `completion_item_resolve` feature handler.

The external analysis engine (jedi), reached only through
`create_jedi_script(...).infer()` / `.complete()`, is modelled as an
oracle: a pair of functions from the template context and the probed
code fragment to the engine's answers.  Every theorem that depends on
the oracle either holds for all oracles or fixes a concrete one.

Python exceptions (IndexError from `stack.pop()` on an empty list,
KeyError from `dict[missing]`) are modelled with `Except Unit`; a
Python function that cannot raise is embedded as a total function.
-/

/-! ## Regular-expression engine

Python `re` backtracking semantics for the fixed patterns used by the
parser.  A match attempt explores alternatives in Python's order:
alternation tries the left branch first, greedy repetition tries the
longer continuation first, lazy repetition (`*?`) the shorter one.
Capture groups record the last sub-match; `group` extraction returns
the captured substring.  `any` (the `.` metacharacter) excludes
newline, `$` matches only at the end of the input (document lines are
stored without their trailing newline, which is equivalent for every
pattern used by the source).
-/

/-- Character class: union of Python `\w` (when `word` is set) with an
explicit list of extra characters, e.g. `[\w ,]`. -/
structure CC where
  word : Bool
  extra : List Char
deriving DecidableEq, Repr

/-- Python `\w` on the ASCII range: letters, digits and underscore. -/
def isWordChar (c : Char) : Bool :=
  c.isAlphanum || c = '_'

def CC.mem (cc : CC) (c : Char) : Bool :=
  (cc.word && isWordChar c) || cc.extra.contains c

/-- Single-character matcher: `.`, a literal, or a character class. -/
inductive RSym where
  | any
  | one (c : Char)
  | cls (cc : CC)
deriving DecidableEq, Repr

def RSym.mtc : RSym → Char → Bool
  | .any, c => c ≠ '\n'
  | .one a, c => a = c
  | .cls cc, c => cc.mem c

/-- Regular expressions as used by the parser's patterns.  `star true`
is the lazy `*?`, `star false` the greedy `*`; `grp` is a numbered
capture group; `eol` is `$`. -/
inductive Re where
  | eps
  | sym (s : RSym)
  | seq (a b : Re)
  | alt (a b : Re)
  | star (lazy : Bool) (r : Re)
  | grp (n : Nat) (r : Re)
  | eol
deriving DecidableEq, Repr

def Re.size : Re → Nat
  | .eps => 1
  | .sym _ => 1
  | .seq a b => a.size + b.size + 1
  | .alt a b => a.size + b.size + 1
  | .star _ r => r.size + 1
  | .grp _ r => r.size + 1
  | .eol => 1

/-- Captured group spans: (group number, start, end), newest first. -/
abbrev Caps := List (Nat × Nat × Nat)

/-- Work items of the backtracking matcher: a regex still to match, or
a pending close of capture group `n` opened at position `start`. -/
inductive RTask where
  | re (r : Re)
  | close (n start : Nat)
deriving Repr

/-- Backtracking matcher.  Matches the sequence of tasks against `s`
starting at `pos`; returns the end position and captures of the first
match in Python's backtracking order, or `none`.  The fuel bounds the
depth of the search path; `reFuel` below is always sufficient for the
patterns at hand because every starred sub-pattern consumes at least
one character per iteration. -/
def mrun (s : List Char) : Nat → List RTask → Nat → Caps → Option (Nat × Caps)
  | 0, _, _, _ => none
  | _ + 1, [], pos, caps => some (pos, caps)
  | fuel + 1, t :: rest, pos, caps =>
    match t with
    | .close n st => mrun s fuel rest pos ((n, st, pos) :: caps)
    | .re r =>
      match r with
      | .eps => mrun s fuel rest pos caps
      | .sym k =>
        match s.get? pos with
        | some c => if k.mtc c then mrun s fuel rest (pos + 1) caps else none
        | none => none
      | .seq a b => mrun s fuel (.re a :: .re b :: rest) pos caps
      | .alt a b =>
        (mrun s fuel (.re a :: rest) pos caps).orElse
          (fun _ => mrun s fuel (.re b :: rest) pos caps)
      | .star lz r =>
        if lz then
          (mrun s fuel rest pos caps).orElse
            (fun _ => mrun s fuel (.re r :: .re (.star lz r) :: rest) pos caps)
        else
          (mrun s fuel (.re r :: .re (.star lz r) :: rest) pos caps).orElse
            (fun _ => mrun s fuel rest pos caps)
      | .grp n r => mrun s fuel (.re r :: .close n pos :: rest) pos caps
      | .eol => if pos = s.length then mrun s fuel rest pos caps else none

/-- Fuel amply covering the deepest search path for pattern `r` on
input of length `len`. -/
def reFuel (len : Nat) (r : Re) : Nat :=
  (len + 2) * (r.size + 2) * 2 + 4

/-- A successful match: the subject, the end position, the captures. -/
structure RMatch where
  subject : List Char
  endPos : Nat
  caps : Caps
deriving Repr

/-- Python `match.group(n)`: the last-captured span of group `n`
(empty string when the group did not participate). -/
def RMatch.group (m : RMatch) (n : Nat) : String :=
  match m.caps.find? (fun c => c.1 = n) with
  | some (_, st, en) => String.mk ((m.subject.drop st).take (en - st))
  | none => ""

/-- Python `re.match(r, str)`: anchored at the start of the string. -/
def reMatch (r : Re) (str : String) : Option RMatch :=
  let s := str.data
  (mrun s (reFuel s.length r) [.re r] 0 []).map (fun pc => ⟨s, pc.1, pc.2⟩)

/-- Python `re.search(r, str)`: first match trying successive start
positions left to right. -/
def reSearchFrom (r : Re) (s : List Char) : Nat → Nat → Option RMatch
  | 0, _ => none
  | k + 1, pos =>
    match mrun s (reFuel s.length r) [.re r] pos [] with
    | some pc => some ⟨s, pc.1, pc.2⟩
    | none => reSearchFrom r s k (pos + 1)

def reSearch (r : Re) (str : String) : Option RMatch :=
  reSearchFrom r str.data (str.data.length + 1) 0

/-- Python `re.findall(r, str)` for a pattern with one capture group:
non-overlapping matches scanned left to right, each contributing its
group-1 capture. -/
def reFindAll1From (r : Re) (s : List Char) : Nat → Nat → List String
  | 0, _ => []
  | k + 1, pos =>
    if pos > s.length then []
    else
      match mrun s (reFuel s.length r) [.re r] pos [] with
      | some pc =>
        let m : RMatch := ⟨s, pc.1, pc.2⟩
        if pc.1 > pos then m.group 1 :: reFindAll1From r s k pc.1
        else m.group 1 :: reFindAll1From r s k (pos + 1)
      | none => reFindAll1From r s k (pos + 1)

def reFindAll1 (r : Re) (str : String) : List String :=
  reFindAll1From r str.data (str.data.length + 1) 0

/-! Pattern construction helpers. -/

/-- Literal string pattern. -/
def rstr (t : String) : Re :=
  t.data.foldr (fun c acc => .seq (.sym (.one c)) acc) .eps

/-- Concatenation of a list of patterns. -/
def rcat (l : List Re) : Re :=
  l.foldr .seq .eps

/-- The class `\w`. -/
def wd : Re := .sym (.cls ⟨true, []⟩)

/-- The pattern ` ?` (optional single space, greedy). -/
def spOpt : Re := .alt (.sym (.one ' ')) .eps

/-- Greedy `.*`. -/
def dotStar : Re := .star false (.sym .any)

/-- Lazy `.*?`. -/
def lazyDotStar : Re := .star true (.sym .any)

/-- `r+` (greedy). -/
def rplus (r : Re) : Re := .seq r (.star false r)

/-- `[...]um*` : greedy star over a character class. -/
def starCls (word : Bool) (extra : List Char) : Re :=
  .star false (.sym (.cls ⟨word, extra⟩))

/-! ## The parser's concrete patterns

Each definition transliterates one `re.compile(...)` literal from
djlsp/parser.py. -/

/-- Pattern `.*{% ?load ([\w ]*) ?%}$` (loaded_libraries). -/
def reLoaded : Re :=
  rcat [dotStar, rstr "\x7b%", spOpt, rstr "load ", .grp 1 (starCls true [' ']),
    spOpt, rstr "%\x7d", .eol]

/-- Pattern `.*{# type (\w+) ?: ?(.*?) ?#}.*` (get_context type comments). -/
def reType : Re :=
  rcat [dotStar, rstr "\x7b# type ", .grp 1 (rplus wd), spOpt, rstr ":", spOpt,
    .grp 2 lazyDotStar, spOpt, rstr "#\x7d", dotStar]

/-- Pattern `.*{% ?for ([\w ,]*) in ([\w.]+).*$` (for-scope open). -/
def reForOpen : Re :=
  rcat [dotStar, rstr "\x7b%", spOpt, rstr "for ", .grp 1 (starCls true [' ', ',']),
    rstr " in ", .grp 2 (rplus (.sym (.cls ⟨true, ['.']⟩))), dotStar, .eol]

/-- Pattern `.*{% ?endfor` (for-scope close). -/
def reForClose : Re :=
  rcat [dotStar, rstr "\x7b%", spOpt, rstr "endfor"]

/-- Pattern `.*{% ?with (.+) ?%}.*` (with-scope open). -/
def reWithOpen : Re :=
  rcat [dotStar, rstr "\x7b%", spOpt, rstr "with ", .grp 1 (rplus (.sym .any)),
    spOpt, rstr "%\x7d", dotStar]

/-- Pattern `.*{% ?endwith` (with-scope close). -/
def reWithClose : Re :=
  rcat [dotStar, rstr "\x7b%", spOpt, rstr "endwith"]

/-- Pattern `.*{%.*as ([\w ]+) %}.*$` (as-tag bindings). -/
def reAs : Re :=
  rcat [dotStar, rstr "\x7b%", dotStar, rstr "as ", .grp 1 (rplus (.sym (.cls ⟨true, [' ']⟩))),
    rstr " %\x7d", dotStar, .eol]

/-- Pattern `{% ?(end.*|comment|csrf_token|debug|spaceless)`
(RE_TAGS_NO_CONTEXT). -/
def reTagsNoContext : Re :=
  rcat [rstr "\x7b%", spOpt,
    .grp 1 (.alt (.seq (rstr "end") dotStar)
      (.alt (rstr "comment")
        (.alt (rstr "csrf_token") (.alt (rstr "debug") (rstr "spaceless")))))]

/-- Pattern `.*{% ?extends ['"](.*)['"] ?%}.*` (extends lookup, used
with `re.search`). -/
def reExtends : Re :=
  rcat [dotStar, rstr "\x7b%", spOpt, rstr "extends ",
    .sym (.cls ⟨false, ['\'', '"']⟩), .grp 1 dotStar,
    .sym (.cls ⟨false, ['\'', '"']⟩), spOpt, rstr "%\x7d", dotStar]

/-- Pattern `{% *block ([\w]*) *%}` (block tags, used with
`re.findall`). -/
def reBlockTag : Re :=
  rcat [rstr "\x7b%", .star false (.sym (.one ' ')), rstr "block ",
    .grp 1 (starCls true []), .star false (.sym (.one ' ')), rstr "%\x7d"]

/-- Pattern `{% ?(\w+).*?%}` (tags above the cursor, used with
`re.findall`). -/
def reTagFind : Re :=
  rcat [rstr "\x7b%", spOpt, .grp 1 (rplus wd), lazyDotStar, rstr "%\x7d"]

/-! The dispatcher's ordered matchers (`TemplateParser.completions`). -/

/-- Matcher `.*{% ?load ([\w ]*)$`. -/
def reLoadFrag : Re :=
  rcat [dotStar, rstr "\x7b%", spOpt, rstr "load ", .grp 1 (starCls true [' ']), .eol]

/-- Matcher `.*{% ?block ([\w]*)$`. -/
def reBlockFrag : Re :=
  rcat [dotStar, rstr "\x7b%", spOpt, rstr "block ", .grp 1 (starCls true []), .eol]

/-- Matcher `.*{% ?endblock ([\w]*)$`. -/
def reEndblockFrag : Re :=
  rcat [dotStar, rstr "\x7b%", spOpt, rstr "endblock ", .grp 1 (starCls true []), .eol]

/-- Matcher `.*{% ?url ('|")([\w\-:]*)$`. -/
def reUrlFrag : Re :=
  rcat [dotStar, rstr "\x7b%", spOpt, rstr "url ",
    .grp 1 (.alt (.sym (.one '\'')) (.sym (.one '"'))),
    .grp 2 (starCls true ['-', ':']), .eol]

/-- Matcher `.*{% ?static ('|\")([\w\-\.\/]*)$`. -/
def reStaticFrag : Re :=
  rcat [dotStar, rstr "\x7b%", spOpt, rstr "static ",
    .grp 1 (.alt (.sym (.one '\'')) (.sym (.one '"'))),
    .grp 2 (starCls true ['-', '.', '/']), .eol]

/-- Matcher `.*{% ?(extends|include) ('|")([\w\-:]*)$`. -/
def reExtIncFrag : Re :=
  rcat [dotStar, rstr "\x7b%", spOpt,
    .grp 1 (.alt (rstr "extends") (rstr "include")), rstr " ",
    .grp 2 (.alt (.sym (.one '\'')) (.sym (.one '"'))),
    .grp 3 (starCls true ['-', ':']), .eol]

/-- Matcher `^.*{% ?(\w*)$`. -/
def reTagFrag : Re :=
  rcat [dotStar, rstr "\x7b%", spOpt, .grp 1 (starCls true []), .eol]

/-- Matcher `^.*({%|{{).*?\|(\w*)$`. -/
def reFilterFrag : Re :=
  rcat [dotStar, .grp 1 (.alt (rstr "\x7b%") (rstr "\x7b\x7b")), lazyDotStar,
    rstr "|", .grp 2 (starCls true []), .eol]

/-- Matcher `^.*{# type \w+ ?: ?([\w\d_\.]*)$`. -/
def reTypeFrag : Re :=
  rcat [dotStar, rstr "\x7b# type ", rplus wd, spOpt, rstr ":", spOpt,
    .grp 1 (starCls true ['.']), .eol]

/-- Matcher `.*({{|{% \w+ ).*?([\w\d_\.]*)$`. -/
def reContextFrag : Re :=
  rcat [dotStar,
    .grp 1 (.alt (rstr "\x7b\x7b") (rcat [rstr "\x7b% ", rplus wd, rstr " "])),
    lazyDotStar, .grp 2 (starCls true ['.']), .eol]

/-! ## Data model (djlsp/index.py)

Python dicts are embedded as insertion-ordered association lists:
lookup takes the first (unique) matching key, `update`/assignment
overwrites the value in place keeping the key's position, iteration
follows list order.

Everything from here on lives in the `Djlsp` namespace so that the
source's own names (`Filter`, `Variable`, ...) can be kept without
colliding with the ambient library. -/

namespace Djlsp

/-- Insertion-ordered string-keyed dictionary. -/
abbrev Dict (α : Type) := List (String × α)

def dictGet {α} (d : Dict α) (k : String) : Option α :=
  (d.find? (fun p => p.1 = k)).map (fun p => p.2)

/-- Python `k in d`. -/
def dictHas {α} (d : Dict α) (k : String) : Bool :=
  (d.find? (fun p => p.1 = k)).isSome

/-- Python `d[k] = v`: overwrite in place or append. -/
def dictInsert {α} (d : Dict α) (k : String) (v : α) : Dict α :=
  if dictHas d k then d.map (fun p => if p.1 = k then (k, v) else p)
  else d ++ [(k, v)]

/-- Python `d.update(entries)`. -/
def dictUpdate {α} (d : Dict α) (entries : Dict α) : Dict α :=
  entries.foldl (fun acc p => dictInsert acc p.1 p.2) d

/-- Python `d.setdefault(k, v)` (the resulting dict). -/
def dictSetdefault {α} (d : Dict α) (k : String) (v : α) : Dict α :=
  if dictHas d k then d else d ++ [(k, v)]

/-- Variable (djlsp/index.py): `type: str | None`, `docs: str`,
`value: str`. -/
structure Variable where
  type : Option String := none
  docs : String := ""
  value : String := ""
deriving DecidableEq, Repr

/-- Template (djlsp/index.py).  The dataclass default for `blocks` is
`None`; the collector (django-collector.py) always emits a list, so
`blocks` is embedded as a plain list with `[]` for the absent case.
The `extends` field is spelled `extends_` because `extends` is a
reserved word in Lean. -/
structure Template where
  name : String := ""
  path : String := ""
  extends_ : Option String := none
  blocks : List String := []
  context : Dict Variable := []
deriving DecidableEq, Repr

structure Url where
  name : String := ""
  docs : String := ""
  source : String := ""
deriving DecidableEq, Repr

/-- Tag (djlsp/index.py).  `WorkspaceIndex.update` fills `docs` and
`closing_tag` with `dict.get(...)` without a default, so both are
optional in the embedding. -/
structure Tag where
  name : String := ""
  docs : Option String := none
  source : String := ""
  inner_tags : List String := []
  closing_tag : Option String := none
deriving DecidableEq, Repr

structure Filter where
  name : String := ""
  docs : String := ""
  source : String := ""
deriving DecidableEq, Repr

structure Library where
  name : String := ""
  tags : Dict Tag := []
  filters : Dict Filter := []
deriving DecidableEq, Repr

structure WorkspaceIndex where
  src_path : String := ""
  env_path : String := ""
  file_watcher_globs : List String := []
  static_files : List String := []
  urls : Dict Url := []
  libraries : Dict Library := []
  templates : Dict Template := []
  global_template_context : Dict Variable := []
deriving DecidableEq, Repr

/-- Modelled from the spec: djlsp/constants.py is not part of the
analysed sources; per the spec's "the implicit builtin library is
always considered loaded" and the tests' fallback data, `BUILTIN`
names the implicit builtin library, `"__builtins__"`. -/
def BUILTIN : String := "__builtins__"

/-! ## LSP completion items and the external-engine oracle -/

/-- The subset of `lsprotocol.types.CompletionItemKind` the parser
uses. -/
inductive CompletionItemKind where
  | Class | Variable | Keyword | Module | File | Property | Function
  | Reference | Field
deriving DecidableEq, Repr

/-- The fields of `lsprotocol.types.CompletionItem` the parser sets or
reads. -/
structure CompletionItem where
  label : String
  kind : Option CompletionItemKind := none
  sort_text : Option String := none
  detail : Option String := none
  documentation : Option String := none
deriving DecidableEq, Repr

/-- One entry of a `jedi.Script(...).complete()` answer. -/
structure JediCompletion where
  name : String := ""
  type : String := ""
  docstring : String := ""
deriving DecidableEq, Repr

/-- The external analysis engine at the `create_jedi_script` boundary:
`infer ctx code` stands for
`create_jedi_script(code, context=ctx, transform_code=False).infer()`
returning the types of the inferred names, and `complete ctx code`
stands for `create_jedi_script(code, ...).complete()`.  The synthetic
script built by `create_jedi_script` is a deterministic function of
the context and the code, so the composite of builder and engine is a
function of exactly these two arguments. -/
structure Jedi where
  infer : Dict Variable → String → List String
  complete : Dict Variable → String → List JediCompletion

/-- An oracle for which every probe fails: the engine yields no
results for any input. -/
def jediNone : Jedi where
  infer := fun _ _ => []
  complete := fun _ _ => []

/-! ## String helpers mirroring Python builtins -/

/-- Python `str.isdigit` (ASCII digits). -/
def isdigit (s : String) : Bool :=
  s ≠ "" && s.data.all Char.isDigit

/-- First index at which `pat` occurs in `s`, if any. -/
def findSubstrFrom (s pat : List Char) : Nat → Nat → Option Nat
  | 0, _ => none
  | k + 1, i =>
    if i + pat.length > s.length then none
    else if (s.drop i).take pat.length = pat then some i
    else findSubstrFrom s pat k (i + 1)

def findSubstr (s pat : String) : Option Nat :=
  findSubstrFrom s.data pat.data (s.data.length + 1) 0

/-- Python `pat in s`. -/
def strContains (s pat : String) : Bool :=
  (findSubstr s pat).isSome

/-- Python `s.split(pat, 1)[1]`: the part after the first occurrence
(the whole string when `pat` does not occur, a case the caller guards
against). -/
def afterFirst (s pat : String) : String :=
  match findSubstr s pat with
  | some i => String.mk (s.data.drop (i + pat.data.length))
  | none => s


/-! ### Structural embeddings of the Python string operations

Core `String` operations like `splitOn` are defined by well-founded
recursion and do not reduce inside the kernel; the helpers below are
structurally recursive equivalents with Python semantics (and they
make that semantics explicit: `pySplit` is `str.split` with a
non-empty separator, `pyTrim` is `str.strip`, and so on). -/

/-- Python `s.split(sep)` (non-empty `sep`) on character lists; the
fuel is at least `s.length + 1`, enough because every step consumes
the separator. -/
def pySplitChars (sep : List Char) : Nat → List Char → List (List Char)
  | 0, s => [s]
  | k + 1, s =>
    match findSubstrFrom s sep (s.length + 1) 0 with
    | none => [s]
    | some i => s.take i :: pySplitChars sep k (s.drop (i + sep.length))

/-- Python `s.split(sep)` for a non-empty separator. -/
def pySplit (sep s : String) : List String :=
  (pySplitChars sep.data (s.data.length + 1) s.data).map String.mk

/-- Python `s.strip()`. -/
def pyTrim (s : String) : String :=
  String.mk
    (((s.data.dropWhile Char.isWhitespace).reverse.dropWhile
        Char.isWhitespace).reverse)

/-- Python `s.startswith(pfx)`. -/
def pyStartsWith (s pfx : String) : Bool :=
  pfx.data.isPrefixOf s.data

/-- Python `s.endswith(sfx)`. -/
def pyEndsWith (s sfx : String) : Bool :=
  sfx.data.reverse.isPrefixOf s.data.reverse

/-- Python `c in s` for a single character. -/
def pyContainsChar (s : String) (c : Char) : Bool :=
  s.data.contains c

/-- Python `s[:n]`. -/
def pyTake (s : String) (n : Nat) : String :=
  String.mk (s.data.take n)

/-- Python `sep.join(parts)`. -/
def pyJoin (sep : String) (parts : List String) : String :=
  String.mk (List.intercalate sep.data (parts.map (fun q => q.data)))

/-- Python `s.lower()` (ASCII). -/
def pyToLower (s : String) : String :=
  String.mk (s.data.map Char.toLower)

/-- Decidable equality of embedded Python results. -/
instance {ε α : Type} [DecidableEq ε] [DecidableEq α] :
    DecidableEq (Except ε α) := fun x y =>
  match x, y with
  | .error a, .error b =>
    if h : a = b then .isTrue (by rw [h])
    else .isFalse (fun he => h (by cases he; rfl))
  | .ok a, .ok b =>
    if h : a = b then .isTrue (by rw [h])
    else .isFalse (fun he => h (by cases he; rfl))
  | .error _, .ok _ => .isFalse (fun he => Except.noConfusion he)
  | .ok _, .error _ => .isFalse (fun he => Except.noConfusion he)

/-! ## TemplateParser (djlsp/parser.py) -/

/-- The parser's per-request state: the index, the jedi boundary and
the open document (path and lines; lines are stored without their
trailing newline, see the engine notes). -/
structure TemplateParser where
  workspace_index : WorkspaceIndex
  jedi : Jedi
  docPath : String
  docLines : List String

/-- Python `document.source`. -/
def TemplateParser.docSource (p : TemplateParser) : String :=
  pyJoin "\n" p.docLines

/-- Python `set.add` on an insertion-ordered set model. -/
def setAdd (s : List String) (x : String) : List String :=
  if s.contains x then s else s ++ [x]

/-- The cached property `loaded_libraries`: starts from the builtin
library, then for every line matching the load pattern adds the listed
names that are keys of the library index.  The Python `set` is
embedded as an insertion-ordered duplicate-free list (Python set
iteration order is unspecified, so any enumeration refines it). -/
def loadedFold (libs : Dict Library) : List String → List String → List String
  | [], loaded => loaded
  | line :: rest, loaded =>
    loadedFold libs rest
      (match reMatch reLoaded line with
       | some m =>
         (((pySplit " " (pyTrim (m.group 1))).filter
            (fun lib => dictHas libs lib))).foldl setAdd loaded
       | none => loaded)

def TemplateParser.loaded_libraries (p : TemplateParser) : List String :=
  loadedFold p.workspace_index.libraries p.docLines [BUILTIN]

/-- The names a document line contributes to `loaded_libraries`
before the membership filter: group 1 of the load pattern, stripped
and split on single spaces. -/
def parsedLoadNames (line : String) : List String :=
  match reMatch reLoaded line with
  | some m => pySplit " " (pyTrim (m.group 1))
  | none => []

/-- Python `list.insert(i, x)` / inserting a line into a document. -/
def insertAt {α : Type} : List α → Nat → α → List α
  | xs, 0, y => y :: xs
  | [], _ + 1, y => [y]
  | x :: xs, i + 1, y => x :: insertAt xs i y

/-! ### The expression translator `_django_variable_to_python` -/

/-- Python helper `join_path`: dot-join of the non-empty segments. -/
def join_path (a b : String) : String :=
  pyJoin "." (([a, b]).filter (fun x => x ≠ ""))

/-- The translator's segment loop.  `varStr` is the original input
(returned unchanged when a probe yields nothing), `total` the number
of segments, `idx` the current index, `res` the accumulated host
expression. -/
def djvpGo (jedi : Jedi) (ctx : Dict Variable) (varStr : String)
    (execLast : Bool) (total : Nat) : List String → Nat → String → String
  | [], _, res => if pyEndsWith varStr "." then res ++ "." else res
  | seg :: rest, idx, res =>
    if isdigit seg && decide (idx > 0) then
      djvpGo jedi ctx varStr execLast total rest (idx + 1)
        (res ++ "[" ++ seg ++ "]")
    else
      match jedi.infer ctx (join_path res seg) with
      | [] => varStr
      | t :: _ =>
        let call := t = "function" &&
          (if idx = total - 1 then execLast else true)
        djvpGo jedi ctx varStr execLast total rest (idx + 1)
          (if call then join_path res seg ++ "()" else join_path res seg)

/-- `TemplateParser._django_variable_to_python`. -/
def _django_variable_to_python (jedi : Jedi) (ctx : Dict Variable)
    (varStr : String) (execLast : Bool := true) : String :=
  if varStr = "" then ""
  else
    let segments := pySplit "." varStr
    djvpGo jedi ctx varStr execLast segments.length segments 0 ""

/-- Companion predicate: does the translator's run hit a probe that
yields no result?  Mirrors `djvpGo` step for step. -/
def djvpFailsGo (jedi : Jedi) (ctx : Dict Variable)
    (execLast : Bool) (total : Nat) : List String → Nat → String → Bool
  | [], _, _ => false
  | seg :: rest, idx, res =>
    if isdigit seg && decide (idx > 0) then
      djvpFailsGo jedi ctx execLast total rest (idx + 1)
        (res ++ "[" ++ seg ++ "]")
    else
      match jedi.infer ctx (join_path res seg) with
      | [] => true
      | t :: _ =>
        let call := t = "function" &&
          (if idx = total - 1 then execLast else true)
        djvpFailsGo jedi ctx execLast total rest (idx + 1)
          (if call then join_path res seg ++ "()" else join_path res seg)

/-- Whether a translation run fails (some probed segment yields no
result from the engine). -/
def djvpFails (jedi : Jedi) (ctx : Dict Variable) (varStr : String)
    (execLast : Bool := true) : Bool :=
  if varStr = "" then false
  else
    let segments := pySplit "." varStr
    djvpFailsGo jedi ctx execLast segments.length segments 0 ""

/-! ### The scope-stack scan of `get_context` -/

/-- An open scope frame: the tag kind and the opening match's first
two capture groups (the second is empty for `with`, whose pattern has
a single group).  Python stores the match object; the groups are all
it ever reads. -/
abbrev Frame := String × String × String

/-- One line of the scoped-tags loop: try for-open, for-close,
with-open, with-close in the source's order, first hit wins
(mirroring the inner `for`/`break` over `scoped_tags`).  A close with
no open frame is Python `stack.pop()` on an empty list: IndexError,
embedded as `Except.error`.  The stack is a cons list whose head is
the most recently opened frame. -/
def scanLine (stack : List Frame) (src_line : String) :
    Except Unit (List Frame) :=
  match reMatch reForOpen src_line with
  | some m => .ok (("for", m.group 1, m.group 2) :: stack)
  | none =>
    if (reMatch reForClose src_line).isSome then
      match stack with
      | [] => .error ()
      | _ :: rest => .ok rest
    else
      match reMatch reWithOpen src_line with
      | some m => .ok (("with", m.group 1, "") :: stack)
      | none =>
        if (reMatch reWithClose src_line).isSome then
          match stack with
          | [] => .error ()
          | _ :: rest => .ok rest
        else .ok stack

/-- The scan over the document lines: `idx` is the 0-based line
number; the loop breaks before any line with `line and line_idx >
line` (so a cursor line of 0 never activates the bound, exactly as
Python's truthiness test does). -/
def scanLoop (line : Nat) : List String → Nat → List Frame →
    Except Unit (List Frame)
  | [], _, stack => .ok stack
  | src :: rest, idx, stack =>
    if line ≠ 0 ∧ idx > line then .ok stack
    else
      match scanLine stack src with
      | .error e => .error e
      | .ok stack' => scanLoop line rest (idx + 1) stack'

/-- Context contribution of one open frame (the `for tag_name, match
in stack` loop body of `get_context`). -/
def applyFrame (jedi : Jedi) (ctx : Dict Variable) (f : Frame) :
    Dict Variable :=
  let (tag, g1, g2) := f
  if tag = "for" then
    let ctx := dictInsert ctx "forloop" { type := some "_DjangoForLoop" }
    let loop_variables := pyTrim g1
    let varStr := pyTrim g2
    let varStr := _django_variable_to_python jedi ctx varStr
    if pyContainsChar loop_variables ',' then
      ((pySplit "," loop_variables).enum).foldl
        (fun c p =>
          dictInsert c (pyTrim p.2)
            { value := "next(iter(" ++ varStr ++ "))[" ++ toString p.1 ++ "]" })
        ctx
    else
      dictInsert ctx (pyTrim loop_variables)
        { value := "next(iter(" ++ varStr ++ "))" }
  else if tag = "with" then
    (pySplit " " g1).foldl
      (fun c assignment =>
        match pySplit "=" assignment with
        | [lhs, rhs] =>
          dictInsert c (pyTrim lhs)
            { value := _django_variable_to_python jedi c (pyTrim rhs) }
        | _ => c)
      ctx
  else ctx

/-- `TemplateParser.get_context`: global context, template context,
type comments (whole document), the cursor-bounded scope scan, the
open frames' bindings, and the whole-document as-tag pass.  The
`character` argument is unused by the source as well. -/
def TemplateParser.get_context (p : TemplateParser) (line : Nat) :
    Except Unit (Dict Variable) :=
  let ctx := p.workspace_index.global_template_context
  let ctx :=
    if strContains p.docPath "/templates/" then
      match dictGet p.workspace_index.templates (afterFirst p.docPath "/templates/") with
      | some t => dictUpdate ctx t.context
      | none => ctx
    else ctx
  let ctx := p.docLines.foldl
    (fun c src =>
      match reMatch reType src with
      | some m => dictInsert c (m.group 1) { type := some (m.group 2) }
      | none => c) ctx
  match scanLoop line p.docLines 0 [] with
  | .error e => .error e
  | .ok stack =>
    let ctx := stack.reverse.foldl (applyFrame p.jedi) ctx
    let ctx := p.docLines.foldl
      (fun c src =>
        match reMatch reAs src with
        | some m =>
          (pySplit " " (m.group 1)).foldl
            (fun c2 v => if pyTrim v ≠ "" then dictInsert c2 (pyTrim v) {} else c2) c
        | none => c) ctx
    .ok ctx

/-! ### Completion handlers -/

/-- `TemplateParser._jedi_type_to_completion_kind`. -/
def _jedi_type_to_completion_kind (comp_type : String) : CompletionItemKind :=
  (dictGet
    [("class", CompletionItemKind.Class),
     ("instance", CompletionItemKind.Variable),
     ("keyword", CompletionItemKind.Keyword),
     ("module", CompletionItemKind.Module),
     ("param", CompletionItemKind.Variable),
     ("path", CompletionItemKind.File),
     ("property", CompletionItemKind.Property),
     ("statement", CompletionItemKind.Variable),
     ("function", CompletionItemKind.Function)] comp_type).getD
    CompletionItemKind.Field

/-- `TemplateParser.get_load_completions`: last space-separated word
of the typed list is the prefix; candidates are the library keys other
than the builtin that start with it. -/
def TemplateParser.get_load_completions (p : TemplateParser) (m : RMatch) :
    List CompletionItem :=
  let pfx := (pySplit " " (m.group 1)).getLastD ""
  ((p.workspace_index.libraries.map (fun q => q.1)).filter
    (fun lib => lib ≠ BUILTIN && pyStartsWith lib pfx)).map
    (fun lib => { label := lib, kind := some CompletionItemKind.Module })

/-- `TemplateParser._recursive_block_names` with explicit fuel.  The
mutable `looked_up_templates` list threads linearly through the single
recursive call, so value passing is equivalent.  Python's
`list(set(block_names))` has unspecified order and is embedded as
`List.dedup`.  Fuel 0 is a modelling artifact proved unreachable for
fuel exceeding the number of templates. -/
def rbnAux (templates : Dict Template) :
    Nat → String → List String → List String
  | 0, _, _ => []
  | fuel + 1, template_name, looked_up =>
    let looked_up := looked_up ++ [template_name]
    match dictGet templates template_name with
    | none => []
    | some t =>
      match t.extends_ with
      | some e =>
        if e ≠ "" && ¬ looked_up.contains e then
          (t.blocks ++ rbnAux templates fuel e looked_up).dedup
        else t.blocks.dedup
      | none => t.blocks.dedup

/-- The trace of template names visited by `rbnAux` (the final state
of Python's `looked_up_templates`, minus the caller's part). -/
def rbnVisits (templates : Dict Template) :
    Nat → String → List String → List String
  | 0, _, _ => []
  | fuel + 1, template_name, looked_up =>
    let looked_up := looked_up ++ [template_name]
    template_name ::
      (match dictGet templates template_name with
       | none => []
       | some t =>
         match t.extends_ with
         | some e =>
           if e ≠ "" && ¬ looked_up.contains e then
             rbnVisits templates fuel e looked_up
           else []
         | none => [])

def TemplateParser._recursive_block_names (p : TemplateParser)
    (template_name : String) : List String :=
  rbnAux p.workspace_index.templates
    (p.workspace_index.templates.length + 1) template_name []

/-- `TemplateParser.get_block_completions`. -/
def TemplateParser.get_block_completions (p : TemplateParser) (m : RMatch) :
    List CompletionItem :=
  let pfx := pyTrim (m.group 1)
  let block_names :=
    match reSearch reExtends p.docSource with
    | some m2 => p._recursive_block_names (m2.group 1)
    | none => []
  let used_block_names :=
    p.docLines.foldl (fun acc l => acc ++ reFindAll1 reBlockTag l) []
  (block_names.filter
    (fun name => ¬ used_block_names.contains name && pyStartsWith name pfx)).map
    (fun name => { label := name, kind := some CompletionItemKind.Property })

/-- `TemplateParser.get_endblock_completions`: block names opened on
the lines strictly above the cursor; within a line the matches are
visited in reverse; each new name receives sort text
`f"{999 - len(items)}: {name}"` (`Nat` subtraction, matching Python
for fewer than 1000 distinct names). -/
def TemplateParser.get_endblock_completions (p : TemplateParser)
    (m : RMatch) (line : Nat) : List CompletionItem :=
  let pfx := pyTrim (m.group 1)
  let items : Dict CompletionItem :=
    (p.docLines.take line).foldl
      (fun items text_line =>
        (reFindAll1 reBlockTag text_line).reverse.foldl
          (fun its name =>
            let n := 999 - its.length
            dictSetdefault its name
              { label := name,
                sort_text := some (toString n ++ ": " ++ name),
                kind := some CompletionItemKind.Property })
          items)
      []
  (items.map (fun q => q.2)).filter (fun item => pyStartsWith item.label pfx)

/-- `TemplateParser.get_static_completions`. -/
def TemplateParser.get_static_completions (p : TemplateParser) (m : RMatch) :
    List CompletionItem :=
  let pfx := m.group 2
  (p.workspace_index.static_files.filter
    (fun f => pyStartsWith f pfx)).map
    (fun f => { label := f, kind := some CompletionItemKind.File })

/-- `TemplateParser.get_url_completions`. -/
def TemplateParser.get_url_completions (p : TemplateParser) (m : RMatch) :
    List CompletionItem :=
  let pfx := m.group 2
  ((p.workspace_index.urls.map (fun q => q.2)).filter
    (fun url => pyStartsWith url.name pfx)).map
    (fun url =>
      { label := url.name, documentation := some url.docs,
        kind := some CompletionItemKind.Reference })

/-- `TemplateParser.get_template_completions` (iterating the template
dict yields its keys). -/
def TemplateParser.get_template_completions (p : TemplateParser) (m : RMatch) :
    List CompletionItem :=
  let pfx := m.group 3
  ((p.workspace_index.templates.map (fun q => q.1)).filter
    (fun t => pyStartsWith t pfx)).map
    (fun t => { label := t, kind := some CompletionItemKind.File })

/-- The dict comprehension building `available_tags`:
`libraries.get(lib_name).tags` dereferences `None` when a loaded
library is missing from the index (AttributeError, the error case). -/
def availTags (libs : Dict Library) :
    List String → Dict Tag → Except Unit (Dict Tag)
  | [], acc => .ok acc
  | lib :: rest, acc =>
    match dictGet libs lib with
    | none => .error ()
    | some l =>
      availTags libs rest
        (l.tags.foldl (fun a q => dictInsert a q.2.name q.2) acc)

/-- Python `filter(None, [*tag.inner_tags, tag.closing_tag])`. -/
def innerAndClosing (t : Tag) : List String :=
  (t.inner_tags ++
    (match t.closing_tag with | some c => [c] | none => [])).filter
    (fun s => s ≠ "")

/-- `TemplateParser.get_tag_completions`. -/
def TemplateParser.get_tag_completions (p : TemplateParser) (m : RMatch)
    (line : Nat) : Except Unit (List CompletionItem) :=
  let pfx := m.group 1
  match availTags p.workspace_index.libraries p.loaded_libraries [] with
  | .error e => .error e
  | .ok available_tags =>
    let collected_tags :=
      (p.docLines.take line).foldl
        (fun acc text_line =>
          acc ++ (reFindAll1 reTagFind text_line).filterMap
            (dictGet available_tags))
        []
    let tags : Dict CompletionItem :=
      available_tags.foldl
        (fun ts q =>
          dictInsert ts q.2.name
            { label := q.2.name, documentation := q.2.docs,
              sort_text := some ("999: " ++ q.2.name),
              kind := some CompletionItemKind.Keyword })
        []
    let tags :=
      collected_tags.reverse.enum.foldl
        (fun ts iq =>
          (innerAndClosing iq.2).foldl
            (fun ts2 tag_name =>
              dictSetdefault ts2 tag_name
                { label := tag_name,
                  sort_text := some (toString iq.1 ++ ": " ++ tag_name),
                  kind := some CompletionItemKind.Keyword })
            ts)
        tags
    .ok ((tags.map (fun q => q.2)).filter
      (fun tag => pyStartsWith tag.label pfx))

/-- `TemplateParser.get_filter_completions`. -/
def TemplateParser.get_filter_completions (p : TemplateParser) (m : RMatch) :
    List CompletionItem :=
  let pfx := m.group 2
  let filters :=
    p.loaded_libraries.foldl
      (fun acc lib_name =>
        match dictGet p.workspace_index.libraries lib_name with
        | some lib =>
          acc ++ (lib.filters.map (fun q =>
            ({ label := q.2.name, documentation := some q.2.docs,
               kind := some CompletionItemKind.Function } : CompletionItem)))
        | none => acc)
      []
  filters.filter (fun filter_name => pyStartsWith filter_name.label pfx)

/-- `TemplateParser.get_type_comment_complations` (sic): builds
an import statement from the typed path and asks the engine. -/
def TemplateParser.get_type_comment_complations (p : TemplateParser)
    (m : RMatch) (line : Nat) : Except Unit (List CompletionItem) :=
  let pfx := m.group 1
  let code :=
    if strContains pfx "." then
      let parts := pySplit "." pfx
      let from_part := pyJoin "." parts.dropLast
      let import_part := parts.getLastD ""
      "from " ++ from_part ++ " import " ++ import_part
    else "import " ++ pfx
  match p.get_context line with
  | .error e => .error e
  | .ok ctx =>
    .ok ((p.jedi.complete ctx code).map
      (fun comp =>
        { label := comp.name,
          kind := some (_jedi_type_to_completion_kind comp.type) }))

/-- Sort text of a dot-completion
(`f"{type_sort}-{comp.name}".lower()`). -/
def getSortText (comp : JediCompletion) : String :=
  let type_sort := (dictGet [("statement", "1"), ("property", "2")] comp.type).getD "9"
  pyToLower (type_sort ++ "-" ++ comp.name)

/-- The dot-branch loop of `get_context_completions`: skip names
starting with an underscore, record the rest in the
most-recent-completions cache, emit an item per survivor. -/
def ctxCompLoop : List JediCompletion → Dict JediCompletion →
    List CompletionItem → List CompletionItem × Dict JediCompletion
  | [], cache, items => (items, cache)
  | comp :: rest, cache, items =>
    if pyStartsWith comp.name "_" then ctxCompLoop rest cache items
    else
      ctxCompLoop rest (dictInsert cache comp.name comp)
        (items ++
          [{ label := comp.name, sort_text := some (getSortText comp),
             kind := some (_jedi_type_to_completion_kind comp.type) }])

/-- `TemplateParser.get_context_completions`.  The
`_MOST_RECENT_COMPLETIONS` module global is threaded as `cache`. -/
def TemplateParser.get_context_completions (p : TemplateParser) (m : RMatch)
    (line : Nat) (cache : Dict JediCompletion) :
    Except Unit (List CompletionItem × Dict JediCompletion) :=
  let pfx := m.group 2
  if (reMatch reTagsNoContext (m.group 1)).isSome then .ok ([], cache)
  else if strContains pfx "." then
    match p.get_context line with
    | .error e => .error e
    | .ok ctx => .ok (ctxCompLoop (p.jedi.complete ctx pfx) cache [])
  else
    match p.get_context line with
    | .error e => .error e
    | .ok ctx =>
      .ok ((ctx.filter (fun q => pyStartsWith q.1 pfx)).map
        (fun q =>
          { label := q.1, sort_text := some (pyToLower q.1),
            kind := some CompletionItemKind.Variable,
            detail := some (q.1 ++ ": " ++
              (match q.2.type with | some t => t | none => "None")),
            documentation := some q.2.docs }),
        cache)

/-! ### The completion dispatcher -/

/-- The dispatcher's sort key:
`comp.sort_text if comp.sort_text else comp.label` (Python truthiness:
an unset or empty sort text falls back to the label). -/
def sortKey (c : CompletionItem) : String :=
  match c.sort_text with
  | some s => if s = "" then c.label else s
  | none => c.label

/-- Python string comparison: lexicographic by code point. -/
def charsLe : List Char → List Char → Bool
  | [], _ => true
  | _ :: _, [] => false
  | a :: as, b :: bs => if a = b then charsLe as bs else decide (a.val < b.val)

def strLe (a b : String) : Bool :=
  charsLe a.data b.data

/-- Stable insertion (new element goes after equal keys). -/
def insSorted (x : CompletionItem) : List CompletionItem → List CompletionItem
  | [] => [x]
  | y :: ys => if strLe (sortKey y) (sortKey x) then y :: insSorted x ys
               else x :: y :: ys

/-- Python `sorted(..., key=...)`: stable ascending sort. -/
def sortedByKey (l : List CompletionItem) : List CompletionItem :=
  l.foldl (fun acc x => insSorted x acc) []

/-- `TemplateParser.completions`: the ordered matcher list applied to
the line truncated at the cursor column, first match dispatching to
its handler, the result sorted by the sort key.  `document.lines[line]`
out of range is an IndexError. -/
def TemplateParser.completions (p : TemplateParser) (line character : Nat)
    (cache : Dict JediCompletion) :
    Except Unit (List CompletionItem × Dict JediCompletion) :=
  match p.docLines.get? line with
  | none => .error ()
  | some full_line =>
    let line_fragment := pyTake full_line character
    match reMatch reLoadFrag line_fragment with
    | some m => .ok (sortedByKey (p.get_load_completions m), cache)
    | none =>
    match reMatch reBlockFrag line_fragment with
    | some m => .ok (sortedByKey (p.get_block_completions m), cache)
    | none =>
    match reMatch reEndblockFrag line_fragment with
    | some m => .ok (sortedByKey (p.get_endblock_completions m line), cache)
    | none =>
    match reMatch reUrlFrag line_fragment with
    | some m => .ok (sortedByKey (p.get_url_completions m), cache)
    | none =>
    match reMatch reStaticFrag line_fragment with
    | some m => .ok (sortedByKey (p.get_static_completions m), cache)
    | none =>
    match reMatch reExtIncFrag line_fragment with
    | some m => .ok (sortedByKey (p.get_template_completions m), cache)
    | none =>
    match reMatch reTagFrag line_fragment with
    | some m =>
      (match p.get_tag_completions m line with
       | .error e => .error e
       | .ok items => .ok (sortedByKey items, cache))
    | none =>
    match reMatch reFilterFrag line_fragment with
    | some m => .ok (sortedByKey (p.get_filter_completions m), cache)
    | none =>
    match reMatch reTypeFrag line_fragment with
    | some m =>
      (match p.get_type_comment_complations m line with
       | .error e => .error e
       | .ok items => .ok (sortedByKey items, cache))
    | none =>
    match reMatch reContextFrag line_fragment with
    | some m =>
      (match p.get_context_completions m line cache with
       | .error e => .error e
       | .ok (items, cache') => .ok (sortedByKey items, cache'))
    | none => .ok ([], cache)

/-- Labels of a dispatcher result (empty on an embedded exception). -/
def labelsOf (r : Except Unit (List CompletionItem × Dict JediCompletion)) :
    List String :=
  match r with
  | .ok (items, _) => items.map (fun i => i.label)
  | .error _ => []

/-! ### Deferred resolution (parser staticmethod and server handler) -/

/-- Python truthiness of an optional documentation string. -/
def docTruthy : Option String → Bool
  | none => false
  | some s => s ≠ ""

/-- `TemplateParser.resolve_completion`: guarded cache lookup; on a
miss (or when documentation is already set) the item is returned
unchanged. -/
def TemplateParser.resolve_completion (cache : Dict JediCompletion)
    (item : CompletionItem) : CompletionItem :=
  if ¬ docTruthy item.documentation ∧ dictHas cache item.label then
    match dictGet cache item.label with
    | some completion =>
      { item with
        detail := some ("(" ++ completion.type ++ ") " ++ completion.name),
        documentation := some completion.docstring }
    | none => item
  else item

/-- The server's `completion_item_resolve` feature handler
(djlsp/server.py): unguarded `_MOST_RECENT_COMPLETIONS[item.label]`,
KeyError (the error case) when the label is not cached. -/
def completion_item_resolve (cache : Dict JediCompletion)
    (item : CompletionItem) : Except Unit CompletionItem :=
  if ¬ docTruthy item.documentation then
    match dictGet cache item.label with
    | none => .error ()
    | some completion =>
      .ok { item with
            detail := some (completion.name ++ ": " ++ completion.type),
            documentation := some completion.docstring }
  else .ok item

/-! ## `WorkspaceIndex.update` (djlsp/index.py)

The collector payload is a JSON object; each `django_data.get(key,
default)` is embedded as an optional field with `Option.getD`. -/

structure UrlOptions where
  docs : Option String := none
  source : Option String := none
deriving DecidableEq, Repr

structure FilterOptions where
  docs : Option String := none
  source : Option String := none
deriving DecidableEq, Repr

structure TagOptions where
  docs : Option String := none
  source : Option String := none
  inner_tags : Option (List String) := none
  closing_tag : Option String := none
deriving DecidableEq, Repr

structure LibData where
  tags : Option (Dict TagOptions) := none
  filters : Option (Dict FilterOptions) := none
deriving DecidableEq, Repr

/-- A context entry of the payload: either a bare type string or an
object of `Variable` keyword fields (`isinstance(type_, dict)`). -/
inductive VarPayload where
  | str (s : String)
  | obj (type : Option String) (docs : Option String) (value : Option String)
deriving DecidableEq, Repr

/-- `Variable(**type_) if isinstance(type_, dict) else
Variable(type=type_)`. -/
def varOfPayload : VarPayload → Variable
  | .str s => { type := some s }
  | .obj t d v => { type := t, docs := d.getD "", value := v.getD "" }

structure TemplateOptions where
  path : Option String := none
  extends_ : Option String := none
  blocks : Option (List String) := none
  context : Option (Dict VarPayload) := none
deriving DecidableEq, Repr

structure DjangoData where
  file_watcher_globs : Option (List String) := none
  static_files : Option (List String) := none
  urls : Option (Dict UrlOptions) := none
  libraries : Option (Dict LibData) := none
  templates : Option (Dict TemplateOptions) := none
  global_template_context : Option (Dict VarPayload) := none
deriving Repr

/-- `WorkspaceIndex.update`: `file_watcher_globs` and `static_files`
default to the index's current value when their key is absent; the
four remaining collections are rebuilt from the payload alone (with
`{}` defaults).  `src_path`/`env_path` are untouched. -/
def WorkspaceIndex.update (self : WorkspaceIndex) (django_data : DjangoData) :
    WorkspaceIndex :=
  { self with
    file_watcher_globs :=
      django_data.file_watcher_globs.getD self.file_watcher_globs,
    static_files := django_data.static_files.getD self.static_files,
    urls :=
      (django_data.urls.getD []).map
        (fun q =>
          (q.1, { name := q.1, docs := q.2.docs.getD "",
                  source := q.2.source.getD "" })),
    libraries :=
      (django_data.libraries.getD []).map
        (fun q =>
          (q.1,
           { name := q.1,
             filters :=
               ((q.2.filters.getD []).map
                 (fun f =>
                   (f.1, ({ name := f.1, docs := f.2.docs.getD "",
                            source := f.2.source.getD "" } : Filter)))),
             tags :=
               ((q.2.tags.getD []).map
                 (fun t =>
                   (t.1, ({ name := t.1, docs := t.2.docs,
                            source := t.2.source.getD "",
                            inner_tags := t.2.inner_tags.getD [],
                            closing_tag := t.2.closing_tag } : Tag)))) })),
    templates :=
      (django_data.templates.getD []).map
        (fun q =>
          (q.1,
           { name := q.1, path := q.2.path.getD "",
             extends_ := q.2.extends_,
             blocks := q.2.blocks.getD [],
             context := (q.2.context.getD []).map
               (fun c => (c.1, varOfPayload c.2)) })),
    global_template_context :=
      (django_data.global_template_context.getD []).map
        (fun c => (c.1, varOfPayload c.2)) }

/-! ## Spec-side definition for the load-completion claim -/

/-- Following the claim's words (for comparison with
`get_load_completions`, not translated from the source): the known
library names, minus the builtin library, minus the library names
already listed earlier on the same load statement, filtered to those
starting with the typed prefix. -/
def specLoadCandidates (libs : Dict Library) (m : RMatch) : List String :=
  let ws := pySplit " " (m.group 1)
  let pfx := ws.getLastD ""
  let listed := ws.dropLast
  (libs.map (fun q => q.1)).filter
    (fun lib => lib ≠ BUILTIN && ¬ listed.contains lib && pyStartsWith lib pfx)

/-- Template keys not yet visited: the termination measure of
`rbnAux`. -/
def keysNotIn (templates : Dict Template) (visited : List String) :
    List String :=
  ((templates.map (fun q => q.1)).dedup).filter
    (fun k => decide (¬ k ∈ visited))

/-! ## Concrete instances used by the individual claims -/

/-- Document with a for-loop opened on the line after the cursor. -/
def exC1base : TemplateParser :=
  { workspace_index := {}, jedi := jediNone, docPath := "/p/x.html",
    docLines := ["\x7b\x7b x \x7d\x7d"] }

def exC1full : TemplateParser :=
  { exC1base with docLines := ["\x7b\x7b x \x7d\x7d", "\x7b% for a in b %\x7d"] }

/-- Document with a type comment below cursor line 1. -/
def exC1tbase : TemplateParser :=
  { workspace_index := {}, jedi := jediNone, docPath := "/p/x.html",
    docLines := ["a", "b"] }

def exC1tfull : TemplateParser :=
  { exC1tbase with docLines := ["a", "b", "\x7b# type zz: int #\x7d"] }

/-- A template index whose extends references form a two-cycle. -/
def exC2tpls : Dict Template :=
  [("a", { name := "a", blocks := ["x", "y"], extends_ := some "b" }),
   ("b", { name := "b", blocks := ["y", "z"], extends_ := some "a" })]

def exC2p : TemplateParser :=
  { workspace_index := { templates := exC2tpls }, jedi := jediNone,
    docPath := "", docLines := [] }

/-- Document with a bare closing tag and no open frame. -/
def exC4p : TemplateParser :=
  { workspace_index := {}, jedi := jediNone, docPath := "/p/x.html",
    docLines := ["\x7b% endfor %\x7d"] }

/-- Two blocks opened on one line, cursor in an endblock tag on the
next line. -/
def exC5p : TemplateParser :=
  { workspace_index := {}, jedi := jediNone, docPath := "/p/t.html",
    docLines := ["\x7b% block a %\x7d\x7b% block b %\x7d", "\x7b% endblock "] }

/-- Index with one non-builtin library, and a load statement that
lists it twice. -/
def exC6p : TemplateParser :=
  { workspace_index := { libraries := [("bar", { name := "bar" })] },
    jedi := jediNone, docPath := "", docLines := ["\x7b% load bar bar"] }

def exC7p : TemplateParser :=
  { workspace_index := { libraries := [("website", { name := "website" })] },
    jedi := jediNone, docPath := "", docLines := ["\x7b% load website %\x7d"] }

def exC9i1 : WorkspaceIndex := { file_watcher_globs := ["a.py"] }

def exC9i2 : WorkspaceIndex := { file_watcher_globs := ["b.py"] }

/-- A refresh payload with every key present. -/
def exC9d : DjangoData :=
  { file_watcher_globs := some ["g"], static_files := some ["s"],
    urls := some [], libraries := some [], templates := some [],
    global_template_context := some [] }

/-- An engine reporting one underscore-prefixed and one plain member. -/
def exC10jedi : Jedi where
  infer := fun _ _ => []
  complete := fun _ _ => [{ name := "_hidden" }, { name := "ok" }]

def exC10p : TemplateParser :=
  { workspace_index := {}, jedi := exC10jedi, docPath := "",
    docLines := [] }

/-- A dispatcher match for the fragment `{{ a.` with group 1 `{{` and
group 2 `a.`. -/
def exC10m : RMatch :=
  ⟨"\x7b\x7b a.".data, 5, [(2, 3, 5), (1, 0, 2)]⟩

def exC10item : CompletionItem :=
  { label := "ok", sort_text := some "9-ok",
    kind := some CompletionItemKind.Field }


/-! ## Theorems -/

/-- Helper for C3: when the failure predicate fires, the segment loop
returns the original expression. -/
theorem djvpGo_fails_identity (jedi : Jedi) (ctx : Dict Variable)
    (varStr : String) (execLast : Bool) (total : Nat) :
    ∀ (segs : List String) (idx : Nat) (res : String),
      djvpFailsGo jedi ctx execLast total segs idx res = true →
      djvpGo jedi ctx varStr execLast total segs idx res = varStr := by
  intro segs
  induction segs with
  | nil => intro idx res h; simp [djvpFailsGo] at h
  | cons seg rest ih =>
    intro idx res h
    simp only [djvpFailsGo] at h
    simp only [djvpGo]
    by_cases hd : (isdigit seg && decide (idx > 0)) = true
    · rw [if_pos hd] at h ⊢
      exact ih _ _ h
    · rw [if_neg hd] at h ⊢
      cases hj : jedi.infer ctx (join_path res seg) with
      | nil => rfl
      | cons t ts =>
        rw [hj] at h
        exact ih _ _ h

/-- C3: for every engine oracle, context and input expression, the
expression translator `_django_variable_to_python` is a total
function (it never raises), and whenever the external-engine probe on
some probed segment yields no result, it returns the original input
expression unchanged. -/
theorem django_variable_to_python_failure_identity (jedi : Jedi)
    (ctx : Dict Variable) (varStr : String) (execLast : Bool)
    (h : djvpFails jedi ctx varStr execLast = true) :
    _django_variable_to_python jedi ctx varStr execLast = varStr := by
  unfold _django_variable_to_python
  unfold djvpFails at h
  by_cases hv : varStr = ""
  · rw [if_pos hv] at h; simp at h
  · rw [if_neg hv] at h ⊢
    exact djvpGo_fails_identity _ _ _ _ _ _ _ _ h

/-- Witness for C3 at a concrete input: with an engine that yields no
results, translating `a.b` fails at the first probe and returns the
input unchanged. -/
theorem django_variable_to_python_failure_identity_witness :
    djvpFails jediNone [] "a.b" true = true ∧
      _django_variable_to_python jediNone [] "a.b" true = "a.b" :=
  ⟨by decide,
   django_variable_to_python_failure_identity jediNone [] "a.b" true (by decide)⟩

/-- C4: a document whose only line is a bare closing tag makes the
scope-stack scan of `get_context` pop an empty stack — Python raises
IndexError (the claim says the close is logged and discarded). -/
theorem get_context_unmatched_close_raises :
    exC4p.get_context 0 = .error () := by decide

/-- C5: on the document whose first line is
`{% block a %}{% block b %}` with the cursor inside `{% endblock `
on the next line, the dispatcher's sorted end-block completion is
`a` before `b` (sort texts `998: a` and `999: b`) — not `b` before
`a` as the claim states. -/
theorem endblock_completions_order_at_concrete :
    labelsOf (exC5p.completions 1 12 []) = ["a", "b"] := by decide

/-- Counterexample for C6: with library index `{bar}` and typed list
`bar bar`, the handler offers `bar` again even though it is already
listed earlier on the same load statement, while the claimed
candidate set (specLoadCandidates) is empty. -/
theorem get_load_completions_reoffers_listed_cex :
    (reMatch reLoadFrag "\x7b% load bar bar").map
        (fun m => (exC6p.get_load_completions m).map (fun i => i.label)) =
      some ["bar"] ∧
    (reMatch reLoadFrag "\x7b% load bar bar").map
        (fun m => specLoadCandidates exC6p.workspace_index.libraries m) =
      some [] := by decide

/-- Helper for C6: extracting labels undoes the item construction. -/
theorem map_label_mk (l : List String) :
    (l.map (fun lib =>
      ({ label := lib, kind := some CompletionItemKind.Module } :
        CompletionItem))).map (fun i => i.label) = l := by
  induction l with
  | nil => rfl
  | cons x xs ih => simp [ih]

/-- C6 (amended): the load-completion candidates are exactly the
known library names minus the builtin library, filtered to those
starting with the typed prefix (the last space-separated word of the
match); names already listed earlier on the statement are not
excluded. -/
theorem get_load_completions_exact (p : TemplateParser) (m : RMatch) :
    (p.get_load_completions m).map (fun i => i.label) =
      (p.workspace_index.libraries.map (fun q => q.1)).filter
        (fun lib => lib ≠ BUILTIN &&
          pyStartsWith lib ((pySplit " " (m.group 1)).getLastD "")) := by
  simp only [TemplateParser.get_load_completions]
  exact map_label_mk _

/-- C8: resolving a completion item whose label is not cached — the
server handler `completion_item_resolve` raises KeyError (the error
case) instead of returning the item unchanged, while the parser's
guarded `resolve_completion`, which the server never calls, returns
it unchanged as the claim states. -/
theorem completion_item_resolve_miss :
    completion_item_resolve [] { label := "zzz" } = .error () ∧
      TemplateParser.resolve_completion [] { label := "zzz" } =
        { label := "zzz" } := by decide

/-- Counterexample for C9: a payload without the
`file_watcher_globs` key keeps the prior index's value, so the field
is not determined by the payload alone. -/
theorem workspace_update_keeps_old_globs_cex :
    (exC9i1.update { }).file_watcher_globs ≠
      (exC9i2.update { }).file_watcher_globs := by decide

/-- C9 (amended): `WorkspaceIndex.update` rebuilds `urls`,
`libraries`, `templates` and `global_template_context` from the
payload alone; `file_watcher_globs` and `static_files` are determined
by the payload exactly when their key is present (otherwise they keep
the prior value). -/
theorem workspace_update_payload_determined (i1 i2 : WorkspaceIndex)
    (d : DjangoData) :
    ((i1.update d).urls = (i2.update d).urls ∧
     (i1.update d).libraries = (i2.update d).libraries ∧
     (i1.update d).templates = (i2.update d).templates ∧
     (i1.update d).global_template_context =
       (i2.update d).global_template_context) ∧
    (d.file_watcher_globs.isSome →
      (i1.update d).file_watcher_globs = (i2.update d).file_watcher_globs) ∧
    (d.static_files.isSome →
      (i1.update d).static_files = (i2.update d).static_files) := by
  refine ⟨⟨rfl, rfl, rfl, rfl⟩, ?_, ?_⟩
  · intro h
    cases hd : d.file_watcher_globs with
    | none => rw [hd] at h; simp at h
    | some v => simp [WorkspaceIndex.update, hd]
  · intro h
    cases hd : d.static_files with
    | none => rw [hd] at h; simp at h
    | some v => simp [WorkspaceIndex.update, hd]

/-- Witness for C9 at a concrete input: with a payload carrying both
list keys, the six fields agree for two indexes that differ in their
prior `file_watcher_globs`. -/
theorem workspace_update_payload_determined_witness :
    ((exC9i1.update exC9d).urls = (exC9i2.update exC9d).urls ∧
     (exC9i1.update exC9d).libraries = (exC9i2.update exC9d).libraries ∧
     (exC9i1.update exC9d).templates = (exC9i2.update exC9d).templates ∧
     (exC9i1.update exC9d).global_template_context =
       (exC9i2.update exC9d).global_template_context) ∧
    (exC9i1.update exC9d).file_watcher_globs =
      (exC9i2.update exC9d).file_watcher_globs ∧
    (exC9i1.update exC9d).static_files =
      (exC9i2.update exC9d).static_files :=
  ⟨(workspace_update_payload_determined exC9i1 exC9i2 exC9d).1,
   (workspace_update_payload_determined exC9i1 exC9i2 exC9d).2.1 (by decide),
   (workspace_update_payload_determined exC9i1 exC9i2 exC9d).2.2 (by decide)⟩


/-- Counterexample for C1: at cursor line 0 the bound `line and
line_idx > line` is inert (0 is falsy), so a for-tag on the line
below the cursor changes the resolved context; and even at cursor
line 1 the type-comment pass reads the whole document, so a type
comment below the cursor changes the resolved context. -/
theorem get_context_not_cursor_bounded_cex :
    exC1full.get_context 0 ≠ exC1base.get_context 0 ∧
      exC1tfull.get_context 1 ≠ exC1tbase.get_context 1 := by decide

/-- Helper for C1: the scan with the same cursor line is unaffected
by dropping the lines it breaks before, for a non-zero cursor line. -/
theorem scanLoop_take_aux (line : Nat) (hline : line ≠ 0) :
    ∀ (lines : List String) (idx : Nat) (stack : List Frame),
      scanLoop line (lines.take (line + 1 - idx)) idx stack =
        scanLoop line lines idx stack := by
  intro lines
  induction lines with
  | nil => intro idx stack; rw [List.take_nil]
  | cons x xs ih =>
    intro idx stack
    by_cases hidx : idx > line
    · have h0 : line + 1 - idx = 0 := by omega
      rw [h0, List.take_zero]
      simp [scanLoop, hline, hidx]
    · have h1 : line + 1 - idx = (line + 1 - (idx + 1)) + 1 := by omega
      rw [h1, List.take_succ_cons]
      simp only [scanLoop]
      have hcond : ¬(line ≠ 0 ∧ idx > line) := fun hc => hidx hc.2
      rw [if_neg hcond, if_neg hcond]
      cases hs : scanLine stack x with
      | error e => rfl
      | ok stack2 => exact ih (idx + 1) stack2

/-- C1 (amended): for every document and every cursor line ≥ 1, the
scope-stack scan of `get_context` reads only lines 0..cursor_line:
the resulting stack of open frames is identical whether or not any
lines below the cursor line are present.  (At cursor line 0 the bound
is inert because Python's `line and line_idx > line` treats 0 as
falsy, and the type-comment and as-tag passes always scan the whole
document, so the full context map is not cursor-bounded.) -/
theorem scanLoop_cursor_bounded (lines : List String) (line : Nat)
    (h : 1 ≤ line) :
    scanLoop line (lines.take (line + 1)) 0 [] =
      scanLoop line lines 0 [] := by
  have := scanLoop_take_aux line (by omega) lines 0 []
  simpa using this

/-- Witness for C1 at a concrete input: a three-line document with
cursor line 1; the scan ignores the closing tag on line 2. -/
theorem scanLoop_cursor_bounded_witness :
    1 ≤ 1 ∧
      scanLoop 1 (["\x7b% for a in b %\x7d", "x", "\x7b% endfor %\x7d"].take (1 + 1)) 0 [] =
        scanLoop 1 ["\x7b% for a in b %\x7d", "x", "\x7b% endfor %\x7d"] 0 [] :=
  ⟨by decide, scanLoop_cursor_bounded ["\x7b% for a in b %\x7d", "x", "\x7b% endfor %\x7d"] 1 (by decide)⟩

/-- Helper for C7: `setAdd` preserves membership. -/
theorem setAdd_mem {s : List String} {y : String} (x : String)
    (h : y ∈ s) : y ∈ setAdd s x := by
  unfold setAdd
  split
  · exact h
  · exact List.mem_append_left _ h

/-- Helper for C7: folding `setAdd` preserves membership. -/
theorem foldl_setAdd_mem (names : List String) :
    ∀ (s : List String) (y : String), y ∈ s → y ∈ names.foldl setAdd s := by
  induction names with
  | nil => intro s y h; exact h
  | cons n ns ih => intro s y h; exact ih _ _ (setAdd_mem n h)

/-- Helper for C7: the load fold only grows the loaded set. -/
theorem loadedFold_mem (libs : Dict Library) (lines : List String) :
    ∀ (loaded : List String) (y : String),
      y ∈ loaded → y ∈ loadedFold libs lines loaded := by
  induction lines with
  | nil => intro loaded y h; exact h
  | cons l rest ih =>
    intro loaded y h
    simp only [loadedFold]
    cases hm : reMatch reLoaded l with
    | none => exact ih _ _ h
    | some m => exact ih _ _ (foldl_setAdd_mem _ _ _ h)

/-- Helper for C7: a line all of whose parsed names are unknown to
the library index contributes nothing to the fold. -/
theorem loadedFold_cons_noop (libs : Dict Library) (l : String)
    (h : ∀ n ∈ parsedLoadNames l, dictHas libs n = false) :
    ∀ (rest : List String) (loaded : List String),
      loadedFold libs (l :: rest) loaded = loadedFold libs rest loaded := by
  intro rest loaded
  simp only [loadedFold]
  cases hm : reMatch reLoaded l with
  | none => rfl
  | some m =>
    have hnames : parsedLoadNames l = pySplit " " (pyTrim (m.group 1)) := by
      unfold parsedLoadNames
      rw [hm]
    have hfil :
        (pySplit " " (pyTrim (m.group 1))).filter
          (fun lib => dictHas libs lib) = [] := by
      rw [List.filter_eq_nil_iff]
      intro a ha
      rw [← hnames] at ha
      simp [h a ha]
    show loadedFold libs rest
        (List.foldl setAdd loaded
          ((pySplit " " (pyTrim (m.group 1))).filter
            (fun lib => dictHas libs lib))) =
      loadedFold libs rest loaded
    rw [hfil, List.foldl_nil]

/-- Helper for C7: inserting such a line anywhere leaves the fold
unchanged. -/
theorem loadedFold_insertAt (libs : Dict Library) (l : String)
    (h : ∀ n ∈ parsedLoadNames l, dictHas libs n = false) :
    ∀ (lines : List String) (i : Nat) (loaded : List String),
      loadedFold libs (insertAt lines i l) loaded =
        loadedFold libs lines loaded := by
  intro lines
  induction lines with
  | nil =>
    intro i loaded
    cases i with
    | zero => exact loadedFold_cons_noop libs l h [] loaded
    | succ j => exact loadedFold_cons_noop libs l h [] loaded
  | cons x xs ih =>
    intro i loaded
    cases i with
    | zero => exact loadedFold_cons_noop libs l h (x :: xs) loaded
    | succ j =>
      show loadedFold libs (x :: insertAt xs j l) loaded =
        loadedFold libs (x :: xs) loaded
      simp only [loadedFold]
      cases hm : reMatch reLoaded x with
      | none => exact ih j _
      | some m => exact ih j _

/-- C7: the loaded-library set always contains the builtin library
(even with no load statements), and inserting a load statement whose
listed names are all absent from the library index leaves the
loaded-library set unchanged. -/
theorem loaded_libraries_builtin_and_unknown_noop (p : TemplateParser)
    (i : Nat) (l : String) :
    BUILTIN ∈ p.loaded_libraries ∧
      ((∀ n ∈ parsedLoadNames l, dictHas p.workspace_index.libraries n = false) →
        TemplateParser.loaded_libraries
            { p with docLines := insertAt p.docLines i l } =
          p.loaded_libraries) := by
  constructor
  · exact loadedFold_mem _ _ _ _ (by simp)
  · intro h
    unfold TemplateParser.loaded_libraries
    exact loadedFold_insertAt _ _ h _ _ _

/-- Witness for C7 at a concrete input: inserting
`{% load unknown %}` into a document that loads `website` leaves the
loaded set `[__builtins__, website]` unchanged, which still contains
the builtin. -/
theorem loaded_libraries_builtin_and_unknown_noop_witness :
    BUILTIN ∈ exC7p.loaded_libraries ∧
      TemplateParser.loaded_libraries
          { exC7p with docLines := insertAt exC7p.docLines 1 "\x7b% load unknown %\x7d" } =
        exC7p.loaded_libraries :=
  ⟨(loaded_libraries_builtin_and_unknown_noop exC7p 1 "\x7b% load unknown %\x7d").1,
   (loaded_libraries_builtin_and_unknown_noop exC7p 1 "\x7b% load unknown %\x7d").2
     (by decide)⟩

/-- Helper for C10: the dot-branch loop never emits a label starting
with an underscore. -/
theorem ctxCompLoop_no_underscore :
    ∀ (comps : List JediCompletion) (cache : Dict JediCompletion)
      (items : List CompletionItem),
      (∀ it ∈ items, pyStartsWith it.label "_" = false) →
      ∀ it ∈ (ctxCompLoop comps cache items).1,
        pyStartsWith it.label "_" = false := by
  intro comps
  induction comps with
  | nil => intro cache items h it hit; exact h it hit
  | cons c cs ih =>
    intro cache items h it hit
    simp only [ctxCompLoop] at hit
    by_cases hc : pyStartsWith c.name "_" = true
    · rw [if_pos hc] at hit
      exact ih _ _ h it hit
    · rw [if_neg hc] at hit
      refine ih _ _ ?_ it hit
      intro it2 hit2
      rcases List.mem_append.mp hit2 with h2 | h2
      · exact h it2 h2
      · rw [List.mem_singleton.mp h2]
        cases hb : pyStartsWith c.name "_" with
        | false => rfl
        | true => exact absurd hb hc

/-- C10: for every engine oracle and every expression-completion
request whose typed prefix (group 2 of the dispatcher match) contains
a dot, no item of the returned candidate list has a label beginning
with an underscore. -/
theorem context_completions_no_underscore (p : TemplateParser)
    (m : RMatch) (line : Nat) (cache : Dict JediCompletion)
    (items : List CompletionItem) (cache2 : Dict JediCompletion)
    (hdot : strContains (m.group 2) "." = true)
    (hres : p.get_context_completions m line cache = .ok (items, cache2)) :
    ∀ it ∈ items, pyStartsWith it.label "_" = false := by
  unfold TemplateParser.get_context_completions at hres
  by_cases htag : (reMatch reTagsNoContext (m.group 1)).isSome = true
  · rw [if_pos htag] at hres
    obtain ⟨h1, h2⟩ := Prod.mk.injEq .. ▸ Except.ok.inj hres
    intro it hit
    rw [← h1] at hit
    simp at hit
  · rw [if_neg htag, if_pos hdot] at hres
    cases hctx : p.get_context line with
    | error e => rw [hctx] at hres; exact absurd hres (by simp)
    | ok ctx =>
      rw [hctx] at hres
      have hpair := Except.ok.inj hres
      intro it hit
      have : items = (ctxCompLoop (p.jedi.complete ctx (m.group 2)) cache []).1 := by
        rw [hpair]
      rw [this] at hit
      exact ctxCompLoop_no_underscore _ _ _ (by intro it2 hit2; simp at hit2) it hit

/-- Witness for C10 at a concrete input: an engine reporting
`_hidden` and `ok` for the dotted prefix `a.` yields only the
`ok` item. -/
theorem context_completions_no_underscore_witness :
    strContains (exC10m.group 2) "." = true ∧
      (∀ it ∈ [exC10item], pyStartsWith it.label "_" = false) :=
  ⟨by decide,
   fun it hit =>
     context_completions_no_underscore exC10p exC10m 0 [] [exC10item]
       [("ok", { name := "ok" })] (by decide) (by decide) it hit⟩


/-- Helper for C2: a successful dictionary lookup means the key is
among the keys. -/
theorem dictGet_some_mem_keys {α : Type} (d : Dict α) (n : String) (t : α)
    (h : dictGet d n = some t) : n ∈ d.map (fun q => q.1) := by
  unfold dictGet at h
  cases hf : d.find? (fun p => p.1 = n) with
  | none => rw [hf] at h; simp at h
  | some q =>
    have hmem := List.mem_of_find?_eq_some hf
    have hq : q.1 = n := by simpa using List.find?_some hf
    rw [← hq]
    exact List.mem_map_of_mem _ hmem

/-- Helper for C2: visiting one more (unvisited, known) template name
strictly decreases the unvisited-keys measure. -/
theorem keysNotIn_append_lt (tps : Dict Template) (visited : List String)
    (n : String) (hk : n ∈ tps.map (fun q => q.1)) (hnv : n ∉ visited) :
    (keysNotIn tps (visited ++ [n])).length <
      (keysNotIn tps visited).length := by
  unfold keysNotIn
  have hsplit :
      ((tps.map (fun q => q.1)).dedup).filter
        (fun k => decide (¬ k ∈ (visited ++ [n]))) =
      (((tps.map (fun q => q.1)).dedup).filter
        (fun k => decide (¬ k ∈ visited))).filter
        (fun k => !(k == n)) := by
    rw [List.filter_filter]
    apply List.filter_congr
    intro k _
    by_cases h1 : k ∈ visited <;> by_cases h2 : k = n <;>
      simp [h1, h2]
  rw [hsplit]
  apply List.length_filter_lt_length_iff_exists.mpr
  refine ⟨n, ?_, by simp⟩
  rw [List.mem_filter]
  exact ⟨List.mem_dedup.mpr hk, by simpa using hnv⟩

/-- Helper for C2: with fuel exceeding the unvisited-keys measure the
result is fuel-independent (Python's recursion terminates: its depth
is bounded by the number of templates). -/
theorem rbnAux_fuel_agnostic (tps : Dict Template) :
    ∀ (f1 f2 : Nat) (name : String) (visited : List String),
      name ∉ visited →
      (keysNotIn tps visited).length < f1 →
      (keysNotIn tps visited).length < f2 →
      rbnAux tps f1 name visited = rbnAux tps f2 name visited := by
  intro f1
  induction f1 with
  | zero => intro f2 name visited hnv h1 h2; omega
  | succ f1 ih =>
    intro f2 name visited hnv h1 h2
    cases f2 with
    | zero => omega
    | succ f2 =>
      simp only [rbnAux]
      split
      · rfl
      · rename_i t hget
        split
        · rename_i e hext
          split
          · rename_i hcond
            have he : e ∉ visited ++ [name] := by
              have := (Bool.and_eq_true _ _).mp hcond |>.2
              simpa using this
            have hlt := keysNotIn_append_lt tps visited name
              (dictGet_some_mem_keys tps name t hget) hnv
            rw [ih f2 e (visited ++ [name]) he (by omega) (by omega)]
          · rfl
        · rfl

/-- Helper for C2: the block names returned are exactly the block
names of the templates on the visited chain. -/
theorem rbnAux_mem (tps : Dict Template) :
    ∀ (f : Nat) (name : String) (visited : List String),
      name ∉ visited → (keysNotIn tps visited).length < f →
      ∀ b, b ∈ rbnAux tps f name visited ↔
        ∃ n, n ∈ rbnVisits tps f name visited ∧
          ∃ t, dictGet tps n = some t ∧ b ∈ t.blocks := by
  intro f
  induction f with
  | zero => intro name visited h1 h2; omega
  | succ f ih =>
    intro name visited hnv hlt b
    simp only [rbnAux, rbnVisits]
    split
    · rename_i hget
      simp [hget]
    · rename_i t hget
      split
      · rename_i e hext
        split
        · rename_i hcond
          have he : e ∉ visited ++ [name] := by
            have := (Bool.and_eq_true _ _).mp hcond |>.2
            simpa using this
          have hlt2 := keysNotIn_append_lt tps visited name
            (dictGet_some_mem_keys tps name t hget) hnv
          rw [List.mem_dedup, List.mem_append,
            ih e (visited ++ [name]) he (by omega) b]
          simp [hget, List.mem_cons, exists_eq_or_imp]
        · simp [hget]
      · simp [hget]

/-- Helper for C2: the visited chain has no duplicates and stays
disjoint from the incoming visited list. -/
theorem rbnVisits_nodup (tps : Dict Template) :
    ∀ (f : Nat) (name : String) (visited : List String),
      name ∉ visited → (keysNotIn tps visited).length < f →
      (rbnVisits tps f name visited).Nodup ∧
        ∀ x ∈ rbnVisits tps f name visited, x ∉ visited := by
  intro f
  induction f with
  | zero => intro name visited h1 h2; omega
  | succ f ih =>
    intro name visited hnv hlt
    have hsingle :
        (([name] : List String).Nodup ∧ ∀ x ∈ [name], x ∉ visited) :=
      ⟨List.nodup_singleton _,
       fun x hx => by rw [List.mem_singleton.mp hx]; exact hnv⟩
    simp only [rbnVisits]
    split
    · exact hsingle
    · rename_i t hget
      split
      · rename_i e hext
        split
        · rename_i hcond
          have he : e ∉ visited ++ [name] := by
            have := (Bool.and_eq_true _ _).mp hcond |>.2
            simpa using this
          have hlt2 := keysNotIn_append_lt tps visited name
            (dictGet_some_mem_keys tps name t hget) hnv
          obtain ⟨hnd, hfresh⟩ :=
            ih e (visited ++ [name]) he (by omega)
          refine ⟨List.nodup_cons.mpr ⟨?_, hnd⟩, ?_⟩
          · intro hmem
            exact hfresh name hmem (List.mem_append_right _ (by simp))
          · intro x hx
            rcases List.mem_cons.mp hx with rfl | hx2
            · exact hnv
            · intro hxv
              exact hfresh x hx2 (List.mem_append_left _ hxv)
        · exact hsingle
      · exact hsingle

/-- C2: for every workspace index — in particular one whose
`extends` references form a cycle back to the starting template —
`_recursive_block_names` terminates: any fuel exceeding the number of
templates yields the same result as the canonical run, that result's
members are exactly the union of the block names of the templates on
the visited `extends` chain, and the chain visits each template name
at most once. -/
theorem recursive_block_names_cycle_safe (p : TemplateParser)
    (name : String) (fuel : Nat)
    (h : p.workspace_index.templates.length < fuel) :
    rbnAux p.workspace_index.templates fuel name [] =
        p._recursive_block_names name ∧
      (∀ b, b ∈ p._recursive_block_names name ↔
        ∃ n, n ∈ rbnVisits p.workspace_index.templates fuel name [] ∧
          ∃ t, dictGet p.workspace_index.templates n = some t ∧
            b ∈ t.blocks) ∧
      (rbnVisits p.workspace_index.templates fuel name []).Nodup := by
  have hded :
      (keysNotIn p.workspace_index.templates []).length ≤
        p.workspace_index.templates.length := by
    unfold keysNotIn
    have h1 := List.length_filter_le
      (fun k => decide (¬ k ∈ ([] : List String)))
      ((p.workspace_index.templates.map (fun q => q.1)).dedup)
    have h2 :=
      (List.dedup_sublist
        (p.workspace_index.templates.map (fun q => q.1))).length_le
    rw [List.length_map] at h2
    omega
  have hkf : (keysNotIn p.workspace_index.templates []).length < fuel := by
    omega
  have hkc : (keysNotIn p.workspace_index.templates []).length <
      p.workspace_index.templates.length + 1 := by omega
  have hstable :
      rbnAux p.workspace_index.templates fuel name [] =
        p._recursive_block_names name := by
    unfold TemplateParser._recursive_block_names
    exact rbnAux_fuel_agnostic _ fuel
      (p.workspace_index.templates.length + 1) name [] (by simp) hkf hkc
  refine ⟨hstable, ?_, (rbnVisits_nodup _ fuel name [] (by simp) hkf).1⟩
  intro b
  rw [← hstable]
  exact rbnAux_mem _ fuel name [] (by simp) hkf b

/-- Witness for C2 at a concrete cyclic index: templates `a` and `b`
extend each other; fuel 7 matches the canonical run and the visit
chain `[a, b]` has no duplicates. -/
theorem recursive_block_names_cycle_safe_witness :
    rbnAux exC2tpls 7 "a" [] = exC2p._recursive_block_names "a" ∧
      (rbnVisits exC2tpls 7 "a" []).Nodup :=
  ⟨(recursive_block_names_cycle_safe exC2p "a" 7 (by decide)).1,
   (recursive_block_names_cycle_safe exC2p "a" 7 (by decide)).2.2⟩

end Djlsp
